import Mathlib

/-!
Shallow embedding of the spglib-rs marshaling layer.

The repository is a thin safe wrapper over the spglib C engine.  We embed the
Rust wrapper code (src/error.rs, src/cell.rs, src/dataset.rs, src/spacegroup.rs)
as pure Lean functions.  The external C engine is not part of the repository;
every engine call site is therefore parameterised by the engine's observable
behaviour at that call (its integer status code and the contents it writes into
the caller-supplied buffers, or the record it returns).  Machine reals (f64)
are carried as rationals, since no claim depends on floating-point rounding;
C strings are byte lists decoded by a UTF-8 validator mirroring Rust's
str::from_utf8.
-/

namespace Spglib

/-! ## error.rs -/

/-- Possible error codes (src/error.rs, enum SpglibError). -/
inductive SpglibError where
  | SpacegroupSearchFailed
  | CellStandardizationFailed
  | SymmetryOperationSearchFailed
  | AtomsTooClose
  | PointgroupNotFound
  | NiggliFailed
  | DelaunayFailed
  | ArraySizeShortage
  | Unknown
deriving DecidableEq, Repr

/-- Translation of a raw engine status code (a C int) into the taxonomy
(src/error.rs, impl From for SpglibError).  The Rust match on integer
literals compiles to this chain of equality tests. -/
def SpglibError.fromCode (item : Int) : SpglibError :=
  if item = 1 then SpglibError.SpacegroupSearchFailed
  else if item = 2 then SpglibError.CellStandardizationFailed
  else if item = 3 then SpglibError.SymmetryOperationSearchFailed
  else if item = 4 then SpglibError.AtomsTooClose
  else if item = 5 then SpglibError.PointgroupNotFound
  else if item = 6 then SpglibError.NiggliFailed
  else if item = 7 then SpglibError.DelaunayFailed
  else if item = 8 then SpglibError.ArraySizeShortage
  else SpglibError.Unknown

/-! ## Numeric carriers -/

/-- A 3-vector of engine reals ([f64; 3]). -/
abbrev Vec3 := Rat × Rat × Rat

/-- A 3x3 matrix of engine reals ([[f64; 3]; 3]). -/
abbrev Mat3 := Vec3 × Vec3 × Vec3

/-- A 3-vector of C ints ([i32; 3]). -/
abbrev Vec3i := Int × Int × Int

/-- A 3x3 integer matrix ([[i32; 3]; 3]). -/
abbrev Mat3i := Vec3i × Vec3i × Vec3i

/-- Outcome of calling a Rust function that can terminate the process:
`ret` is a normal return, `abort` is a panic (an `unwrap` of an error, or
`unimplemented!`).  A panic never yields a value to the caller. -/
inductive Outcome (α : Type) where
  | ret : α → Outcome α
  | abort : Outcome α
deriving DecidableEq, Repr

/-! ## cell.rs -/

/-- Atomic structure with lattice bounds (src/cell.rs, struct Cell). -/
structure Cell where
  lattice : Mat3
  positions : List Vec3
  types : List Int
deriving DecidableEq, Repr

/-- Returns a new cell (src/cell.rs, Cell::new).  The constructor copies the
borrowed slices verbatim; it performs no validation of any kind. -/
def Cell.new (lattice : Mat3) (positions : List Vec3) (types : List Int) : Cell :=
  { lattice := lattice, positions := positions, types := types }

/-- Observable behaviour of one call to the engine's spg_standardize_cell:
the returned status (the standardized atom count, 0 on failure) and the data
the engine writes into the three caller-supplied buffers.  `posOut`/`typesOut`
are the entries written at the front of the positions/types buffers. -/
structure StdEffect where
  res : Int
  latticeOut : Mat3
  posOut : List Vec3
  typesOut : List Int
deriving DecidableEq, Repr

/-- In-place write of `written` into the front of the fixed-size buffer `buf`:
the buffer keeps its length, entries beyond the written range keep their old
(now stale) contents.  This is what writing through a raw pointer into an
existing Vec's storage does; the Vec's recorded length never changes. -/
def writeBuf (buf written : List α) : List α :=
  written.take buf.length ++ buf.drop written.length

/-- Standardizes the cell (src/cell.rs, Cell::standardize).  The engine is
invoked through raw pointers into the existing buffers; its effect at this
call is `eff`.  The status is checked against 0 only after the buffers have
been written, and the Vec lengths are never adjusted by the wrapper. -/
def Cell.standardize (c : Cell) (toPrimitive noIdealize : Bool) (symprec : Rat)
    (eff : StdEffect) : Except SpglibError Unit × Cell :=
  let _ := toPrimitive
  let _ := noIdealize
  let _ := symprec
  let c' : Cell := { lattice := eff.latticeOut,
                     positions := writeBuf c.positions eff.posOut,
                     types := writeBuf c.types eff.typesOut }
  if eff.res = 0 then (Except.error SpglibError.CellStandardizationFailed, c')
  else (Except.ok (), c')

/-- Observable behaviour of one call to spg_delaunay_reduce or
spg_niggli_reduce: the status and the lattice the engine writes.  Only the
lattice pointer is passed to these routines, so nothing else can be written. -/
structure LatEffect where
  res : Int
  latticeOut : Mat3
deriving DecidableEq, Repr

/-- Applies a Delaunay reduction (src/cell.rs, Cell::delaunay_reduce). -/
def Cell.delaunay_reduce (c : Cell) (eps : Rat) (eff : LatEffect) :
    Except SpglibError Unit × Cell :=
  let _ := eps
  let c' : Cell := { c with lattice := eff.latticeOut }
  if eff.res = 0 then (Except.error SpglibError.DelaunayFailed, c')
  else (Except.ok (), c')

/-- Applies a Niggli reduction (src/cell.rs, Cell::niggli_reduce). -/
def Cell.niggli_reduce (c : Cell) (eps : Rat) (eff : LatEffect) :
    Except SpglibError Unit × Cell :=
  let _ := eps
  let c' : Cell := { c with lattice := eff.latticeOut }
  if eff.res = 0 then (Except.error SpglibError.NiggliFailed, c')
  else (Except.ok (), c')

/-- src/cell.rs, Cell::ir_reciprocal_mesh: the body is `unimplemented!()`,
which panics unconditionally; no input reaches any other behaviour. -/
def Cell.ir_reciprocal_mesh (c : Cell) (mesh : Int × Int × Int)
    (shift : Bool × Bool × Bool) : Outcome (Except SpglibError Unit) :=
  let _ := c
  let _ := mesh
  let _ := shift
  Outcome.abort

/-! ## C-string decoding (CStr::from_ptr followed by str::to_str) -/

/-- Is the byte a UTF-8 continuation byte (10xxxxxx)? -/
def isCont (b : UInt8) : Bool :=
  0x80 ≤ b.toNat && b.toNat ≤ 0xBF

/-- Payload bits of a continuation byte. -/
def contVal (b : UInt8) : Nat := b.toNat - 0x80

/-- Decode a byte list as UTF-8, mirroring Rust's str::from_utf8: shortest-form
encodings only, surrogate range excluded, code points at most 0x10FFFF.
Returns none exactly when the bytes are not valid UTF-8. -/
def utf8Chars : List UInt8 → Option (List Char)
  | [] => some []
  | b :: rest =>
    let n := b.toNat
    if n ≤ 0x7F then
      (utf8Chars rest).map (fun cs => Char.ofNat n :: cs)
    else if 0xC2 ≤ n && n ≤ 0xDF then
      match rest with
      | c :: r2 =>
        if isCont c then
          (utf8Chars r2).map (fun cs =>
            Char.ofNat ((n - 0xC0) * 0x40 + contVal c) :: cs)
        else none
      | [] => none
    else if n = 0xE0 then
      match rest with
      | c :: d :: r2 =>
        if (0xA0 ≤ c.toNat && c.toNat ≤ 0xBF) && isCont d then
          (utf8Chars r2).map (fun cs =>
            Char.ofNat ((n - 0xE0) * 0x1000 + contVal c * 0x40 + contVal d) :: cs)
        else none
      | _ => none
    else if (0xE1 ≤ n && n ≤ 0xEC) || n = 0xEE || n = 0xEF then
      match rest with
      | c :: d :: r2 =>
        if isCont c && isCont d then
          (utf8Chars r2).map (fun cs =>
            Char.ofNat ((n - 0xE0) * 0x1000 + contVal c * 0x40 + contVal d) :: cs)
        else none
      | _ => none
    else if n = 0xED then
      match rest with
      | c :: d :: r2 =>
        if (0x80 ≤ c.toNat && c.toNat ≤ 0x9F) && isCont d then
          (utf8Chars r2).map (fun cs =>
            Char.ofNat ((n - 0xE0) * 0x1000 + contVal c * 0x40 + contVal d) :: cs)
        else none
      | _ => none
    else if n = 0xF0 then
      match rest with
      | c :: d :: e :: r2 =>
        if (0x90 ≤ c.toNat && c.toNat ≤ 0xBF) && isCont d && isCont e then
          (utf8Chars r2).map (fun cs =>
            Char.ofNat ((n - 0xF0) * 0x40000 + contVal c * 0x1000 +
              contVal d * 0x40 + contVal e) :: cs)
        else none
      | _ => none
    else if 0xF1 ≤ n && n ≤ 0xF3 then
      match rest with
      | c :: d :: e :: r2 =>
        if isCont c && isCont d && isCont e then
          (utf8Chars r2).map (fun cs =>
            Char.ofNat ((n - 0xF0) * 0x40000 + contVal c * 0x1000 +
              contVal d * 0x40 + contVal e) :: cs)
        else none
      | _ => none
    else if n = 0xF4 then
      match rest with
      | c :: d :: e :: r2 =>
        if (0x80 ≤ c.toNat && c.toNat ≤ 0x8F) && isCont d && isCont e then
          (utf8Chars r2).map (fun cs =>
            Char.ofNat ((n - 0xF0) * 0x40000 + contVal c * 0x1000 +
              contVal d * 0x40 + contVal e) :: cs)
        else none
      | _ => none
    else none

/-- Decoding of an engine text field: CStr::from_ptr reads the buffer up to
the first NUL byte, then to_str validates it as UTF-8.  none models the Err
branch of to_str. -/
def decodeText (bs : List UInt8) : Option String :=
  (utf8Chars (bs.takeWhile (fun b => b ≠ 0))).map (fun cs => String.mk cs)

/-! ## dataset.rs -/

/-- Container for a structure's crystallographic properties
(src/dataset.rs, struct Dataset).  Counts are the nonnegative C ints the
engine reports (n as usize in the adoptions). -/
structure Dataset where
  spacegroup_number : Int
  hall_number : Int
  international_symbol : String
  hall_symbol : String
  choice : String
  transformation_matrix : Mat3
  origin_shift : Vec3
  n_operations : Nat
  rotations : List Mat3i
  translations : List Vec3
  n_atoms : Nat
  wyckoffs : List Int
  site_symmetry_symbols : List String
  equivalent_atoms : List Int
  crystallographic_orbits : List Int
  primitive_lattice : Mat3
  mapping_to_primitive : List Int
  n_std_atoms : Nat
  std_lattice : Mat3
  std_types : List Int
  std_positions : List Vec3
  std_rotation_matrix : Mat3
  std_mapping_to_primitive : List Int
  pointgroup_symbol : String
deriving DecidableEq, Repr

/-- The heap blocks the engine allocates for one SpglibDataset: the aggregate
header itself and its nine variable-length arrays. -/
inductive Block where
  | header
  | rotations
  | translations
  | wyckoffs
  | equivalentAtoms
  | crystallographicOrbits
  | mappingToPrimitive
  | stdTypes
  | stdPositions
  | stdMappingToPrimitive
deriving DecidableEq, Repr

/-- The nine array blocks, in the order the wrapper adopts them with
Vec::from_raw_parts. -/
def adoptedArrays : List Block :=
  [Block.rotations, Block.translations, Block.wyckoffs, Block.equivalentAtoms,
   Block.crystallographicOrbits, Block.mappingToPrimitive, Block.stdTypes,
   Block.stdPositions, Block.stdMappingToPrimitive]

/-- Contents of the engine-allocated SpglibDataset record pointed to by the
raw pointer: fixed-size fields by value, the nine arrays as the contents of
their allocations, text fields as their byte buffers. -/
structure SpglibDatasetRaw where
  spacegroup_number : Int
  hall_number : Int
  international_symbol : List UInt8
  hall_symbol : List UInt8
  choice : List UInt8
  transformation_matrix : Mat3
  origin_shift : Vec3
  n_operations : Nat
  rotations : List Mat3i
  translations : List Vec3
  n_atoms : Nat
  wyckoffs : List Int
  equivalent_atoms : List Int
  crystallographic_orbits : List Int
  primitive_lattice : Mat3
  mapping_to_primitive : List Int
  n_std_atoms : Nat
  std_lattice : Mat3
  std_types : List Int
  std_positions : List Vec3
  std_rotation_matrix : Mat3
  std_mapping_to_primitive : List Int
  pointgroup_symbol : List UInt8
deriving DecidableEq, Repr

/-- The Dataset value assembled on the success path of try_from: fixed-size
fields copied by value, each array adopted by Vec::from_raw_parts(p, n, n)
(exactly n elements of its allocation), site_symmetry_symbols left empty. -/
def assembleDataset (r : SpglibDatasetRaw) (is hs ch pg : String) : Dataset :=
  { spacegroup_number := r.spacegroup_number
    hall_number := r.hall_number
    international_symbol := is
    hall_symbol := hs
    choice := ch
    transformation_matrix := r.transformation_matrix
    origin_shift := r.origin_shift
    n_operations := r.n_operations
    rotations := r.rotations.take r.n_operations
    translations := r.translations.take r.n_operations
    n_atoms := r.n_atoms
    wyckoffs := r.wyckoffs.take r.n_atoms
    site_symmetry_symbols := []
    equivalent_atoms := r.equivalent_atoms.take r.n_atoms
    crystallographic_orbits := r.crystallographic_orbits.take r.n_atoms
    primitive_lattice := r.primitive_lattice
    mapping_to_primitive := r.mapping_to_primitive.take r.n_atoms
    n_std_atoms := r.n_std_atoms
    std_lattice := r.std_lattice
    std_types := r.std_types.take r.n_std_atoms
    std_positions := r.std_positions.take r.n_std_atoms
    std_rotation_matrix := r.std_rotation_matrix
    std_mapping_to_primitive := r.std_mapping_to_primitive.take r.n_std_atoms
    pointgroup_symbol := pg }

/-- src/dataset.rs, impl TryFrom for Dataset, with ownership accounting.
Returns the Result together with the list of array blocks whose ownership the
function took over (adoption events, each a Vec::from_raw_parts), and the list
of blocks the function itself deallocated before returning.  Source control
flow: the first three text fields are decoded before any adoption, so their
failures return with nothing adopted; the nine adoptions then happen
unconditionally; pointgroup_symbol is decoded last, so its failure drops
(frees) the nine freshly adopted vectors on the early return.  No path frees
the header block: the function never calls any engine deallocation routine
or free on the pointer itself. -/
def tryFromRaw (r : SpglibDatasetRaw) :
    Except SpglibError Dataset × List Block × List Block :=
  match decodeText r.international_symbol with
  | none => (Except.error SpglibError.Unknown, [], [])
  | some is =>
    match decodeText r.hall_symbol with
    | none => (Except.error SpglibError.Unknown, [], [])
    | some hs =>
      match decodeText r.choice with
      | none => (Except.error SpglibError.Unknown, [], [])
      | some ch =>
        match decodeText r.pointgroup_symbol with
        | none => (Except.error SpglibError.Unknown, adoptedArrays, adoptedArrays)
        | some pg => (Except.ok (assembleDataset r is hs ch pg), adoptedArrays, [])

/-- All blocks freed over the full lifecycle of one extraction: blocks the
conversion freed itself, plus — when a Dataset was produced — the adopted
blocks, freed when the caller eventually drops the Dataset's Vecs.  The header
block is freed on no path. -/
def lifecycleFrees (r : SpglibDatasetRaw) : List Block :=
  match tryFromRaw r with
  | (Except.ok _, adopted, freed) => freed ++ adopted
  | (Except.error _, _, freed) => freed

/-- src/dataset.rs, Dataset::new: calls spg_get_dataset on the cell's buffers
and unwraps the TryFrom result, so a conversion error is a panic, not a
returned value.  `engine` is the engine's response to this call. -/
def datasetNew (engine : Cell → Rat → SpglibDatasetRaw) (cell : Cell)
    (symprec : Rat) : Outcome Dataset :=
  match (tryFromRaw (engine cell symprec)).1 with
  | Except.ok d => Outcome.ret d
  | Except.error _ => Outcome.abort

/-! ## spacegroup.rs -/

/-- Container for a spacegroup's properties (src/spacegroup.rs,
struct Spacegroup). -/
structure Spacegroup where
  number : Int
  international_short : String
  international_full : String
  international : String
  schoenflies : String
  hall_symbol : String
  choice : String
  pointgroup_international : String
  pointgroup_schoenflies : String
  arithmetic_crystal_class_number : Int
  arithmetic_crystal_class_symbol : String
deriving DecidableEq, Repr

/-- The fixed-size SpglibSpacegroupType value the engine returns: integers by
value, text fields as byte buffers. -/
structure SpglibSpacegroupTypeRaw where
  number : Int
  international_short : List UInt8
  international_full : List UInt8
  international : List UInt8
  schoenflies : List UInt8
  hall_symbol : List UInt8
  choice : List UInt8
  pointgroup_international : List UInt8
  pointgroup_schoenflies : List UInt8
  arithmetic_crystal_class_number : Int
  arithmetic_crystal_class_symbol : List UInt8
deriving DecidableEq, Repr

/-- src/spacegroup.rs, impl TryFrom for Spacegroup: decodes the nine text
fields in declaration order, any failure returning Err(Unknown). -/
def tryFromSpacegroup (r : SpglibSpacegroupTypeRaw) : Except SpglibError Spacegroup :=
  match decodeText r.international_short with
  | none => Except.error SpglibError.Unknown
  | some international_short =>
  match decodeText r.international_full with
  | none => Except.error SpglibError.Unknown
  | some international_full =>
  match decodeText r.international with
  | none => Except.error SpglibError.Unknown
  | some international =>
  match decodeText r.schoenflies with
  | none => Except.error SpglibError.Unknown
  | some schoenflies =>
  match decodeText r.hall_symbol with
  | none => Except.error SpglibError.Unknown
  | some hall_symbol =>
  match decodeText r.choice with
  | none => Except.error SpglibError.Unknown
  | some choice =>
  match decodeText r.pointgroup_international with
  | none => Except.error SpglibError.Unknown
  | some pointgroup_international =>
  match decodeText r.pointgroup_schoenflies with
  | none => Except.error SpglibError.Unknown
  | some pointgroup_schoenflies =>
  match decodeText r.arithmetic_crystal_class_symbol with
  | none => Except.error SpglibError.Unknown
  | some arithmetic_crystal_class_symbol =>
    Except.ok
      { number := r.number
        international_short := international_short
        international_full := international_full
        international := international
        schoenflies := schoenflies
        hall_symbol := hall_symbol
        choice := choice
        pointgroup_international := pointgroup_international
        pointgroup_schoenflies := pointgroup_schoenflies
        arithmetic_crystal_class_number := r.arithmetic_crystal_class_number
        arithmetic_crystal_class_symbol := arithmetic_crystal_class_symbol }

/-- src/spacegroup.rs, Spacegroup::from_hall_number: calls
spg_get_spacegroup_type and unwraps the TryFrom result, so a conversion error
is a panic.  `engine` is the engine's response to the lookup. -/
def fromHallNumber (engine : Int → SpglibSpacegroupTypeRaw) (hallNumber : Int) :
    Outcome Spacegroup :=
  match tryFromSpacegroup (engine hallNumber) with
  | Except.ok s => Outcome.ret s
  | Except.error _ => Outcome.abort

/-! ## Concrete instances used as witnesses and counterexamples -/

/-- Zero 3-vector. -/
def zero3 : Vec3 := (0, 0, 0)

/-- Identity real 3x3 matrix. -/
def idMat3 : Mat3 := ((1, 0, 0), (0, 1, 0), (0, 0, 1))

/-- Identity integer 3x3 matrix. -/
def idMat3i : Mat3i := ((1, 0, 0), (0, 1, 0), (0, 0, 1))

/-- A well-formed engine dataset record: valid ASCII text fields, one
symmetry operation, one input atom, one standardized atom, each array holding
exactly its declared count. -/
def wfRec : SpglibDatasetRaw :=
  { spacegroup_number := 229
    hall_number := 529
    international_symbol := [73, 0]
    hall_symbol := [73, 0]
    choice := [0]
    transformation_matrix := idMat3
    origin_shift := zero3
    n_operations := 1
    rotations := [idMat3i]
    translations := [zero3]
    n_atoms := 1
    wyckoffs := [0]
    equivalent_atoms := [0]
    crystallographic_orbits := [0]
    primitive_lattice := idMat3
    mapping_to_primitive := [0]
    n_std_atoms := 1
    std_lattice := idMat3
    std_types := [1]
    std_positions := [zero3]
    std_rotation_matrix := idMat3
    std_mapping_to_primitive := [0]
    pointgroup_symbol := [109, 0] }

/-- The Dataset the conversion produces from `wfRec`. -/
def wfDataset : Dataset :=
  assembleDataset wfRec (String.mk [Char.ofNat 73]) (String.mk [Char.ofNat 73])
    (String.mk []) (String.mk [Char.ofNat 109])

/-- The same engine record with an invalid byte (0xC0, never valid in UTF-8)
in its international_symbol field, so text decoding fails. -/
def badRec : SpglibDatasetRaw :=
  { wfRec with international_symbol := [0xC0, 0] }

/-- A well-formed engine spacegroup record with valid ASCII text fields. -/
def wfSgRec : SpglibSpacegroupTypeRaw :=
  { number := 156
    international_short := [80, 0]
    international_full := [80, 0]
    international := [80, 0]
    schoenflies := [67, 0]
    hall_symbol := [80, 0]
    choice := [0]
    pointgroup_international := [51, 0]
    pointgroup_schoenflies := [67, 0]
    arithmetic_crystal_class_number := 45
    arithmetic_crystal_class_symbol := [51, 0] }

/-- The same spacegroup record with an invalid byte (a lone continuation
byte 0x80) in its schoenflies field, so text decoding fails. -/
def badSgRec : SpglibSpacegroupTypeRaw :=
  { wfSgRec with schoenflies := [0x80, 0] }

/-- The body-centered-cubic example cell from the crate documentation. -/
def bccCell : Cell :=
  Cell.new ((4, 0, 0), (0, 4, 0), (0, 0, 4))
    [zero3, (1/2, 1/2, 1/2)] [1, 1]

/-- Engine behaviour for a successful standardization of `bccCell` to its
primitive cell: status 1 (one atom in the primitive cell), the primitive
lattice written, one position and one type written at the buffer fronts. -/
def bccPrimEff : StdEffect :=
  { res := 1
    latticeOut := ((-2, 2, 2), (2, -2, 2), (2, 2, -2))
    posOut := [zero3]
    typesOut := [1] }

/-- Engine behaviour for a failed standardization call: status 0. -/
def stdFail : StdEffect :=
  { res := 0, latticeOut := idMat3, posOut := [], typesOut := [] }

/-- Engine behaviour for a failed lattice reduction: status 0. -/
def latFail : LatEffect := { res := 0, latticeOut := idMat3 }

/-- Engine behaviour for a successful lattice reduction: status 1. -/
def latOk : LatEffect := { res := 1, latticeOut := idMat3 }

/-! ## Helper lemmas -/

/-- Writing through a raw pointer into an existing buffer never changes the
buffer's length. -/
theorem writeBuf_length (b w : List α) : (writeBuf b w).length = b.length := by
  simp [writeBuf]
  omega

/-- The dataset conversion either fails with Unknown or succeeds. -/
theorem tryFromRaw_fst_or (r : SpglibDatasetRaw) :
    (tryFromRaw r).1 = Except.error SpglibError.Unknown ∨ (tryFromRaw r).1.isOk = true := by
  unfold tryFromRaw
  rcases decodeText r.international_symbol with _ | a <;>
  rcases decodeText r.hall_symbol with _ | b <;>
  rcases decodeText r.choice with _ | c <;>
  rcases decodeText r.pointgroup_symbol with _ | d <;>
  simp [Except.isOk, Except.toBool]

/-- The spacegroup conversion either fails with Unknown or succeeds. -/
theorem tryFromSpacegroup_or (r : SpglibSpacegroupTypeRaw) :
    tryFromSpacegroup r = Except.error SpglibError.Unknown ∨
    (tryFromSpacegroup r).isOk = true := by
  unfold tryFromSpacegroup
  rcases decodeText r.international_short with _ | a <;>
  rcases decodeText r.international_full with _ | b <;>
  rcases decodeText r.international with _ | c <;>
  rcases decodeText r.schoenflies with _ | d <;>
  rcases decodeText r.hall_symbol with _ | e <;>
  rcases decodeText r.choice with _ | f <;>
  rcases decodeText r.pointgroup_international with _ | g <;>
  rcases decodeText r.pointgroup_schoenflies with _ | i <;>
  rcases decodeText r.arithmetic_crystal_class_symbol with _ | j <;>
  simp [Except.isOk, Except.toBool]

/-- Over the whole lifecycle of one extraction, the set of freed blocks is
either empty (an early text failure before any adoption) or exactly the nine
adopted array blocks (the success path, or the pointgroup-decode failure that
drops the freshly adopted vectors). -/
theorem lifecycleFrees_eq (r : SpglibDatasetRaw) :
    lifecycleFrees r = [] ∨ lifecycleFrees r = adoptedArrays := by
  unfold lifecycleFrees tryFromRaw
  rcases decodeText r.international_symbol with _ | a <;>
  rcases decodeText r.hall_symbol with _ | b <;>
  rcases decodeText r.choice with _ | c <;>
  rcases decodeText r.pointgroup_symbol with _ | d <;>
  simp

/-! ## Claim theorems -/

/-- C1: Every variable-length array of a successful extraction is adopted
exactly once into a caller-owned container and freed at most once over the
Dataset's lifecycle — but the engine-allocated header block is freed on no
path whatsoever: the wrapper never invokes the separate header free the
engine requires, so the header is leaked on every extraction (code bug).
At the concrete successful extraction `wfRec`, each of the nine array blocks
is freed exactly once and the header is never freed. -/
theorem spec_c1_header_leak :
    (∀ r : SpglibDatasetRaw,
      adoptedArrays.all (fun b => decide ((lifecycleFrees r).count b ≤ 1)) = true) ∧
    (∀ r : SpglibDatasetRaw, (lifecycleFrees r).count Block.header = 0) ∧
    (tryFromRaw wfRec).1 = Except.ok wfDataset ∧
    adoptedArrays.all (fun b => decide ((lifecycleFrees wfRec).count b = 1)) = true ∧
    (lifecycleFrees wfRec).count Block.header = 0 := by
  refine ⟨?_, ?_, rfl, by decide, by decide⟩
  · intro r
    rcases lifecycleFrees_eq r with h | h <;> rw [h] <;> decide
  · intro r
    rcases lifecycleFrees_eq r with h | h <;> rw [h] <;> decide

/-- C2 (amended): any text-decoding failure is surfaced as Err(Unknown) by the
internal TryFrom conversions, but the public Dataset::new and
Spacegroup::from_hall_number unwrap those results, so a decoding failure
reaches the caller as a process abort, not inside a returned result value. -/
theorem spec_c2_decode_failure_aborts :
    (∀ r : SpglibDatasetRaw, (tryFromRaw r).1.isOk = false →
      (tryFromRaw r).1 = Except.error SpglibError.Unknown) ∧
    (∀ (engine : Cell → Rat → SpglibDatasetRaw) (c : Cell) (p : Rat),
      (tryFromRaw (engine c p)).1.isOk = false → datasetNew engine c p = Outcome.abort) ∧
    (∀ sg : SpglibSpacegroupTypeRaw, (tryFromSpacegroup sg).isOk = false →
      tryFromSpacegroup sg = Except.error SpglibError.Unknown) ∧
    (∀ (engine : Int → SpglibSpacegroupTypeRaw) (hn : Int),
      (tryFromSpacegroup (engine hn)).isOk = false → fromHallNumber engine hn = Outcome.abort) := by
  have h1 : ∀ r : SpglibDatasetRaw, (tryFromRaw r).1.isOk = false →
      (tryFromRaw r).1 = Except.error SpglibError.Unknown := by
    intro r h
    rcases tryFromRaw_fst_or r with he | ho
    · exact he
    · rw [ho] at h; simp at h
  have h3 : ∀ sg : SpglibSpacegroupTypeRaw, (tryFromSpacegroup sg).isOk = false →
      tryFromSpacegroup sg = Except.error SpglibError.Unknown := by
    intro sg h
    rcases tryFromSpacegroup_or sg with he | ho
    · exact he
    · rw [ho] at h; simp at h
  refine ⟨h1, ?_, h3, ?_⟩
  · intro engine c p h
    unfold datasetNew
    rw [h1 _ h]
  · intro engine hn h
    unfold fromHallNumber
    rw [h3 _ h]

/-- C2 counterexample: at a concrete engine record whose international_symbol
holds the invalid byte 0xC0, the conversion fails with Unknown, and the public
Dataset::new aborts instead of returning that error; likewise
Spacegroup::from_hall_number on a record with an invalid schoenflies field. -/
theorem spec_c2_counterexample :
    (tryFromRaw badRec).1 = Except.error SpglibError.Unknown ∧
    datasetNew (fun _ _ => badRec) bccCell (1/100000) = Outcome.abort ∧
    tryFromSpacegroup badSgRec = Except.error SpglibError.Unknown ∧
    fromHallNumber (fun _ => badSgRec) 446 = Outcome.abort :=
  ⟨rfl, rfl, rfl, rfl⟩

/-- C2 witness: the amended theorem applied at the concrete failing records. -/
theorem spec_c2_witness :
    (tryFromRaw badRec).1 = Except.error SpglibError.Unknown ∧
    datasetNew (fun _ _ => badRec) bccCell 0 = Outcome.abort ∧
    fromHallNumber (fun _ => badSgRec) 0 = Outcome.abort :=
  ⟨spec_c2_decode_failure_aborts.1 badRec rfl,
   spec_c2_decode_failure_aborts.2.1 (fun _ _ => badRec) bccCell 0 rfl,
   spec_c2_decode_failure_aborts.2.2.2 (fun _ => badSgRec) 0 rfl⟩

/-- C3: the status-code translation is total on the integers: codes 1 through
8 map to the eight specific kinds in order, and every other integer — 99 in
particular — maps to Unknown; code 4 yields AtomsTooClose. -/
theorem spec_c3_error_code_total :
    SpglibError.fromCode 1 = SpglibError.SpacegroupSearchFailed ∧
    SpglibError.fromCode 2 = SpglibError.CellStandardizationFailed ∧
    SpglibError.fromCode 3 = SpglibError.SymmetryOperationSearchFailed ∧
    SpglibError.fromCode 4 = SpglibError.AtomsTooClose ∧
    SpglibError.fromCode 5 = SpglibError.PointgroupNotFound ∧
    SpglibError.fromCode 6 = SpglibError.NiggliFailed ∧
    SpglibError.fromCode 7 = SpglibError.DelaunayFailed ∧
    SpglibError.fromCode 8 = SpglibError.ArraySizeShortage ∧
    SpglibError.fromCode 99 = SpglibError.Unknown ∧
    ∀ n : Int, (n < 1 ∨ 8 < n) → SpglibError.fromCode n = SpglibError.Unknown := by
  refine ⟨rfl, rfl, rfl, rfl, rfl, rfl, rfl, rfl, rfl, ?_⟩
  intro n h
  unfold SpglibError.fromCode
  split_ifs with h1 h2 h3 h4 h5 h6 h7 h8 <;> first | rfl | (exact absurd h (by omega))

/-- C3 witness: the out-of-range clause applied at the concrete codes 0
and minus three. -/
theorem spec_c3_witness :
    SpglibError.fromCode 0 = SpglibError.Unknown ∧
    SpglibError.fromCode (-3) = SpglibError.Unknown :=
  ⟨spec_c3_error_code_total.2.2.2.2.2.2.2.2.2 0 (Or.inl (by decide)),
   spec_c3_error_code_total.2.2.2.2.2.2.2.2.2 (-3) (Or.inl (by decide))⟩

/-- C4 counterexample: Cell::new accepts one position together with two types
and produces a Cell whose sequences have unequal lengths — nothing is
rejected; it also accepts zero atoms. -/
theorem spec_c4_counterexample :
    (Cell.new idMat3 [zero3] [1, 2]).positions.length = 1 ∧
    (Cell.new idMat3 [zero3] [1, 2]).types.length = 2 ∧
    (Cell.new idMat3 [] []).positions.length = 0 :=
  ⟨rfl, rfl, rfl⟩

/-- C4 (amended): the constructor performs no validation at all — it copies
its lattice, positions, and types arguments verbatim into the Cell, whatever
their lengths, so the length-equality and nonempty invariants are not
established at construction. -/
theorem spec_c4_new_no_validation :
    ∀ (l : Mat3) (ps : List Vec3) (ts : List Int),
      (Cell.new l ps ts).lattice = l ∧ (Cell.new l ps ts).positions = ps ∧
      (Cell.new l ps ts).types = ts :=
  fun _ _ _ => ⟨rfl, rfl, rfl⟩

/-- C5: for every successful extraction from an engine record whose
allocations hold at least the declared counts, each per-operation array has
length n_operations, each per-input-atom array has length n_atoms, and each
standardized-cell array has length n_std_atoms. -/
theorem spec_c5_lengths :
    ∀ (r : SpglibDatasetRaw) (d : Dataset),
      r.n_operations ≤ r.rotations.length →
      r.n_operations ≤ r.translations.length →
      r.n_atoms ≤ r.wyckoffs.length →
      r.n_atoms ≤ r.equivalent_atoms.length →
      r.n_atoms ≤ r.crystallographic_orbits.length →
      r.n_atoms ≤ r.mapping_to_primitive.length →
      r.n_std_atoms ≤ r.std_types.length →
      r.n_std_atoms ≤ r.std_positions.length →
      r.n_std_atoms ≤ r.std_mapping_to_primitive.length →
      (tryFromRaw r).1 = Except.ok d →
      d.rotations.length = d.n_operations ∧
      d.translations.length = d.n_operations ∧
      d.wyckoffs.length = d.n_atoms ∧
      d.equivalent_atoms.length = d.n_atoms ∧
      d.crystallographic_orbits.length = d.n_atoms ∧
      d.mapping_to_primitive.length = d.n_atoms ∧
      d.std_types.length = d.n_std_atoms ∧
      d.std_positions.length = d.n_std_atoms ∧
      d.std_mapping_to_primitive.length = d.n_std_atoms := by
  intro r d h1 h2 h3 h4 h5 h6 h7 h8 h9 h
  unfold tryFromRaw at h
  split at h
  · simp at h
  · split at h
    · simp at h
    · split at h
      · simp at h
      · split at h
        · simp at h
        · simp at h
          subst h
          refine ⟨?_, ?_, ?_, ?_, ?_, ?_, ?_, ?_, ?_⟩ <;>
            simp [assembleDataset, List.length_take] <;> omega

/-- C5 witness: the length equalities hold for the Dataset extracted from the
concrete well-formed record `wfRec`. -/
theorem spec_c5_witness :
    wfDataset.rotations.length = wfDataset.n_operations ∧
    wfDataset.translations.length = wfDataset.n_operations ∧
    wfDataset.wyckoffs.length = wfDataset.n_atoms ∧
    wfDataset.equivalent_atoms.length = wfDataset.n_atoms ∧
    wfDataset.crystallographic_orbits.length = wfDataset.n_atoms ∧
    wfDataset.mapping_to_primitive.length = wfDataset.n_atoms ∧
    wfDataset.std_types.length = wfDataset.n_std_atoms ∧
    wfDataset.std_positions.length = wfDataset.n_std_atoms ∧
    wfDataset.std_mapping_to_primitive.length = wfDataset.n_std_atoms :=
  spec_c5_lengths wfRec wfDataset (by decide) (by decide) (by decide) (by decide)
    (by decide) (by decide) (by decide) (by decide) (by decide) rfl

/-- C6: for every cell, precision and engine behaviour, standardize fails
with exactly CellStandardizationFailed precisely when the engine status is 0,
delaunay_reduce with exactly DelaunayFailed, and niggli_reduce with exactly
NiggliFailed; every nonzero status yields Ok, and no other error kind is ever
returned by the three transforms. -/
theorem spec_c6_transform_error_kinds :
    ∀ (c : Cell) (tp ni : Bool) (sp : Rat) (eff : StdEffect) (eps : Rat) (le : LatEffect),
      (((c.standardize tp ni sp eff).1 = Except.error SpglibError.CellStandardizationFailed) ↔ eff.res = 0) ∧
      (eff.res ≠ 0 → (c.standardize tp ni sp eff).1 = Except.ok ()) ∧
      (∀ e, (c.standardize tp ni sp eff).1 = Except.error e → e = SpglibError.CellStandardizationFailed) ∧
      (((c.delaunay_reduce eps le).1 = Except.error SpglibError.DelaunayFailed) ↔ le.res = 0) ∧
      (le.res ≠ 0 → (c.delaunay_reduce eps le).1 = Except.ok ()) ∧
      (∀ e, (c.delaunay_reduce eps le).1 = Except.error e → e = SpglibError.DelaunayFailed) ∧
      (((c.niggli_reduce eps le).1 = Except.error SpglibError.NiggliFailed) ↔ le.res = 0) ∧
      (le.res ≠ 0 → (c.niggli_reduce eps le).1 = Except.ok ()) ∧
      (∀ e, (c.niggli_reduce eps le).1 = Except.error e → e = SpglibError.NiggliFailed) := by
  intro c tp ni sp eff eps le
  refine ⟨?_, ?_, ?_, ?_, ?_, ?_, ?_, ?_, ?_⟩
  · by_cases hs : eff.res = 0 <;> simp [Cell.standardize, hs]
  · intro h; simp [Cell.standardize, h]
  · intro e he
    by_cases hs : eff.res = 0 <;> simp [Cell.standardize, hs] at he
    exact he.symm
  · by_cases hl : le.res = 0 <;> simp [Cell.delaunay_reduce, hl]
  · intro h; simp [Cell.delaunay_reduce, h]
  · intro e he
    by_cases hl : le.res = 0 <;> simp [Cell.delaunay_reduce, hl] at he
    exact he.symm
  · by_cases hl : le.res = 0 <;> simp [Cell.niggli_reduce, hl]
  · intro h; simp [Cell.niggli_reduce, h]
  · intro e he
    by_cases hl : le.res = 0 <;> simp [Cell.niggli_reduce, hl] at he
    exact he.symm

/-- C6 witness: the error contracts applied at concrete engine behaviours —
a failed standardization, a successful Delaunay reduction, and a failed
Niggli reduction of the documentation's BCC cell. -/
theorem spec_c6_witness :
    (bccCell.standardize true false (1/1000000) stdFail).1 = Except.error SpglibError.CellStandardizationFailed ∧
    (bccCell.delaunay_reduce (1/100000) latOk).1 = Except.ok () ∧
    (bccCell.niggli_reduce (1/100000) latFail).1 = Except.error SpglibError.NiggliFailed :=
  ⟨(spec_c6_transform_error_kinds bccCell true false (1/1000000) stdFail (1/100000) latOk).1.mpr rfl,
   (spec_c6_transform_error_kinds bccCell true false (1/1000000) stdFail (1/100000) latOk).2.2.2.2.1 (by decide),
   (spec_c6_transform_error_kinds bccCell true false (1/1000000) stdFail (1/100000) latFail).2.2.2.2.2.2.1.mpr rfl⟩

/-- C7: for every cell, precision and engine behaviour — success or failure —
delaunay_reduce and niggli_reduce leave the positions and types fields
untouched; only the lattice can change, since only the lattice buffer is
handed to the engine. -/
theorem spec_c7_reduce_frame :
    ∀ (c : Cell) (eps : Rat) (eff : LatEffect),
      (c.delaunay_reduce eps eff).2.positions = c.positions ∧
      (c.delaunay_reduce eps eff).2.types = c.types ∧
      (c.niggli_reduce eps eff).2.positions = c.positions ∧
      (c.niggli_reduce eps eff).2.types = c.types := by
  intro c eps eff
  by_cases h : eff.res = 0 <;> simp [Cell.delaunay_reduce, Cell.niggli_reduce, h]

/-- C8: the wrapper's standardize never changes the length of positions or
types — it never truncates the vectors to the engine-returned atom count —
so no input exists on which a successful to_primitive standardization leaves
the sequences strictly shorter (code bug).  Concretely, a successful
to_primitive standardization of the two-atom BCC cell (engine status 1, one
standardized atom written) still leaves both sequences at length 2. -/
theorem spec_c8_standardize_never_shrinks :
    (∀ (c : Cell) (tp ni : Bool) (sp : Rat) (eff : StdEffect),
      (c.standardize tp ni sp eff).2.positions.length = c.positions.length ∧
      (c.standardize tp ni sp eff).2.types.length = c.types.length) ∧
    (bccCell.standardize true false (1/1000000) bccPrimEff).1 = Except.ok () ∧
    bccPrimEff.res = 1 ∧
    (bccCell.standardize true false (1/1000000) bccPrimEff).2.positions.length = 2 ∧
    (bccCell.standardize true false (1/1000000) bccPrimEff).2.types.length = 2 := by
  refine ⟨?_, rfl, rfl, by decide, by decide⟩
  intro c tp ni sp eff
  by_cases h : eff.res = 0 <;> simp [Cell.standardize, h, writeBuf_length]

/-- C9: every Dataset produced by a successful extraction carries the empty
sequence in site_symmetry_symbols; the layer never fabricates values for it. -/
theorem spec_c9_site_symmetry_empty :
    ∀ (r : SpglibDatasetRaw) (d : Dataset),
      (tryFromRaw r).1 = Except.ok d → d.site_symmetry_symbols = [] := by
  intro r d h
  unfold tryFromRaw at h
  split at h
  · simp at h
  · split at h
    · simp at h
    · split at h
      · simp at h
      · split at h
        · simp at h
        · simp at h
          subst h
          rfl

/-- C9 witness: the Dataset extracted from the concrete record `wfRec` has an
empty site_symmetry_symbols sequence. -/
theorem spec_c9_witness : wfDataset.site_symmetry_symbols = [] :=
  spec_c9_site_symmetry_empty wfRec wfDataset rfl

/-- C10 counterexample: ir_reciprocal_mesh is publicly callable and aborts at
this concrete input, refuting the claim that no public operation aborts. -/
theorem spec_c10_counterexample :
    (Cell.new idMat3 [zero3] [1]).ir_reciprocal_mesh (4, 4, 4) (false, false, false) = Outcome.abort :=
  rfl

/-- C10 (amended): the unimplemented reciprocal-mesh operation is present in
the public surface as a callable that aborts for every input on which it is
called. -/
theorem spec_c10_mesh_always_aborts :
    ∀ (c : Cell) (mesh : Int × Int × Int) (sh : Bool × Bool × Bool),
      c.ir_reciprocal_mesh mesh sh = Outcome.abort :=
  fun _ _ _ => rfl

end Spglib
